import Mathlib

/-!
A shallow embedding of the TweetStream frontend static HTTP server
(`server.py`): URL parsing (`urlparse_path`), request routing
(`do_GET` / `route_path`), file serving (`serve_file`), and process
startup (`run_main`).

A filesystem state is modelled as a map from filename to the outcome of
opening and reading that file in UTF-8 text mode.  A response records
the status code, the value sent for the `Content-type` header, the
value sent for the `Cache-Control` header (when that header is sent at
all), and the body.  Each handler call additionally returns the list of
filenames it attempted to open, so that "performs no filesystem
access" is expressible.
-/

namespace TweetStream

/-- Outcome of `open(filename, 'r', encoding='utf-8')` followed by
`f.read()` in the Python source: the decoded contents on success,
`FileNotFoundError`, or any other exception carrying the message
`str(e)`. -/
inductive ReadResult where
  | ok (content : String)
  | notFound
  | err (msg : String)
deriving DecidableEq

/-- An HTTP response as the handler emits it: `send_response` status,
`Content-type` header value, `Cache-Control` header value when that
header is sent, and the bytes written to `wfile` (as a string; the
server encodes everything as UTF-8). -/
structure Response where
  status : Nat
  contentType : String
  cacheControl : Option String
  body : String
deriving DecidableEq

/-- Python `s.endswith(suffix)`: `suffix` is a suffix of `s` (by code
points, which is how both Python strings and `List Char` count). -/
def ends_with (s suffix : String) : Bool :=
  decide (suffix.data <:+ s.data)

/-- Python `s.startswith(pre)`: `pre` is a prefix of `s`. -/
def starts_with (s pre : String) : Bool :=
  decide (pre.data <+: s.data)

/-- Python `s[1:]`: the string with its first code point removed
(identity on the empty string). -/
def drop1 (s : String) : String :=
  ⟨s.data.drop 1⟩

/-- The `path` attribute of `urllib.parse.urlparse(url)` for an HTTP
request target: `urlparse` first splits off the fragment at the first
`#`, then the query at the first `?`, so the path component is the
prefix of the target up to the first `?` or `#`. -/
def urlparse_path (url : String) : String :=
  ⟨url.data.takeWhile (fun c => !(c == '?' || c == '#'))⟩

/-- `TweetStreamHandler.serve_file(filename, content_type)`: open and
read the file, answering 200 with the contents, 404 on
`FileNotFoundError`, or 500 on any other exception.  The second
component logs the filename whose open was attempted. -/
def serve_file (fs : String → ReadResult) (filename contentType : String) :
    Response × List String :=
  match fs filename with
  | .ok content =>
      (⟨200, contentType ++ "; charset=utf-8", some "no-cache", content⟩, [filename])
  | .notFound =>
      (⟨404, "text/plain", none, "File not found"⟩, [filename])
  | .err e =>
      (⟨500, "text/plain", none, "Server error: " ++ e⟩, [filename])

/-- The routing chain of `TweetStreamHandler.do_GET` applied to the
already-parsed path component: health check, then root/index, then
`.css`, then `.js`, then the SPA fallback to `index.html`. -/
def route_path (fs : String → ReadResult) (path : String) :
    Response × List String :=
  if path = "/health" then
    (⟨200, "text/plain", none, "healthy"⟩, [])
  else if path = "/" ∨ path = "/index.html" then
    serve_file fs "index.html" "text/html"
  else if ends_with path ".css" then
    serve_file fs (drop1 path) "text/css"
  else if ends_with path ".js" then
    serve_file fs (drop1 path) "application/javascript"
  else
    serve_file fs "index.html" "text/html"

/-- `TweetStreamHandler.do_GET`: parse the request target, keep only the
path component, and route it. -/
def do_GET (fs : String → ReadResult) (url : String) : Response × List String :=
  route_path fs (urlparse_path url)

/-- Observable fate of the process after the `__main__` block runs its
startup.  `httpResponse` is listed so that "a bind failure is never
converted into an HTTP response" is expressible. -/
inductive ProcessOutcome where
  | serving (port : Nat)
  | fatalExit (exitCode : Nat) (diagnostic : String)
  | httpResponse (r : Response)
deriving DecidableEq

/-- The `__main__` block: construct `socketserver.TCPServer(("" , 8080))`
and serve forever.  The block wraps the constructor in no `try`/`except`,
so a bind failure (an `OSError` such as address-in-use or
permission-denied) propagates uncaught out of the module; CPython then
prints the traceback as a diagnostic and terminates the process with
exit status 1.  `bindResult` is the outcome of the bind, carrying the
error message on failure. -/
def run_main (bindResult : Except String Unit) : ProcessOutcome :=
  match bindResult with
  | .error e => .fatalExit 1 e
  | .ok _ => .serving 8080

/-- The five routing rules of `do_GET`, in source order. -/
inductive Rule where
  | health
  | rootIndex
  | css
  | js
  | fallback
deriving DecidableEq

/-- When a rule applies to a path, under the source's first-match-wins
order: each rule requires its own guard and the failure of every
earlier guard, and the SPA fallback catches every path not matched
earlier. -/
@[reducible] def ruleMatches (p : String) : Rule → Prop
  | .health => p = "/health"
  | .rootIndex => p ≠ "/health" ∧ (p = "/" ∨ p = "/index.html")
  | .css => p ≠ "/health" ∧ ¬(p = "/" ∨ p = "/index.html") ∧
      ends_with p ".css" = true
  | .js => p ≠ "/health" ∧ ¬(p = "/" ∨ p = "/index.html") ∧
      ends_with p ".css" = false ∧ ends_with p ".js" = true
  | .fallback => p ≠ "/health" ∧ ¬(p = "/" ∨ p = "/index.html") ∧
      ends_with p ".css" = false ∧ ends_with p ".js" = false

/-- The response each routing rule produces, per the source. -/
def ruleAction (fs : String → ReadResult) (p : String) :
    Rule → Response × List String
  | .health => (⟨200, "text/plain", none, "healthy"⟩, [])
  | .rootIndex => serve_file fs "index.html" "text/html"
  | .css => serve_file fs (drop1 p) "text/css"
  | .js => serve_file fs (drop1 p) "application/javascript"
  | .fallback => serve_file fs "index.html" "text/html"

/-- A concrete filesystem used to instantiate theorems: an SPA bundle
with an `index.html`, a stylesheet, a script, a file named `health`,
and an unreadable stylesheet; everything else is absent. -/
def sampleFs (name : String) : ReadResult :=
  if name = "index.html" then .ok "<html>hi</html>"
  else if name = "style.css" then .ok "css-content"
  else if name = "app.js" then .ok "console.log(1)"
  else if name = "health" then .ok "not served"
  else if name = "locked.css" then .err "Permission denied"
  else .notFound

end TweetStream

namespace TweetStream

/-! ### Helper lemmas -/

/-- Structure eta for strings. -/
theorem mk_data (s : String) : String.mk s.data = s := rfl

/-- Appending a string to `"/"` and then removing the first code point
gives the string back: `drop1` strips exactly the leading slash when
there is one. -/
theorem drop1_slash_append (r : String) : drop1 ("/" ++ r) = r := rfl

/-- A string ending in `".js"` does not end in `".css"`: the code point
before the final `s` is `j` in one and `s` in the other. -/
theorem not_css_of_js (p : String) (h : ends_with p ".js" = true) :
    ends_with p ".css" = false := by
  rw [ends_with, decide_eq_true_iff] at h
  rw [ends_with, decide_eq_false_iff_not]
  intro hc
  obtain ⟨t, ht⟩ := h
  obtain ⟨u, hu⟩ := hc
  rw [← hu] at ht
  have hjs : ".js".data = ['.', 'j', 's'] := rfl
  have hcss : ".css".data = ['.', 'c', 's', 's'] := rfl
  rw [hjs, hcss] at ht
  have hre : u ++ ['.', 'c', 's', 's'] = (u ++ ['.']) ++ ['c', 's', 's'] := by
    simp
  rw [hre] at ht
  have hlen : t.length = (u ++ ['.']).length := by
    have hl := congrArg List.length ht
    simp at hl ⊢
    omega
  have heq := List.append_inj_right ht hlen
  simp at heq

/-- A path that does not start with `/` is none of the three literal
paths the router compares against. -/
theorem ne_specials_of_not_slash (p : String) (h : starts_with p "/" = false) :
    p ≠ "/health" ∧ p ≠ "/" ∧ p ≠ "/index.html" := by
  refine ⟨?_, ?_, ?_⟩ <;> rintro rfl <;> exact absurd h (by decide)

/-! ### Claim theorems -/

/-- C2: for every filename and content type, `serve_file` returns
exactly one of three outcomes: 200 with the file's contents when the
read succeeds, 404 with body `File not found` and content type
`text/plain` when the file does not exist, and 500 with content type
`text/plain` and body `Server error: ` followed by a description of the
failure for any other read or decoding failure; the function is total,
so no per-request failure escapes as a crash. -/
theorem spec_c2 (fs : String → ReadResult) (filename contentType : String) :
    (∃ c, fs filename = .ok c ∧
      serve_file fs filename contentType =
        (⟨200, contentType ++ "; charset=utf-8", some "no-cache", c⟩, [filename])) ∨
    (fs filename = .notFound ∧
      serve_file fs filename contentType =
        (⟨404, "text/plain", none, "File not found"⟩, [filename])) ∨
    (∃ e, fs filename = .err e ∧
      serve_file fs filename contentType =
        (⟨500, "text/plain", none, "Server error: " ++ e⟩, [filename])) := by
  cases h : fs filename with
  | ok c => exact .inl ⟨c, rfl, by simp [serve_file, h]⟩
  | notFound => exact .inr (.inl ⟨rfl, by simp [serve_file, h]⟩)
  | err e => exact .inr (.inr ⟨e, rfl, by simp [serve_file, h]⟩)

/-- C5: for every file successfully served by `serve_file`, the status
is 200, the `Content-type` header is the given content type followed by
`; charset=utf-8`, the `Cache-Control` header is `no-cache`, and the
body is the file's contents. -/
theorem spec_c5 (fs : String → ReadResult) (filename contentType c : String)
    (h : fs filename = .ok c) :
    serve_file fs filename contentType =
      (⟨200, contentType ++ "; charset=utf-8", some "no-cache", c⟩, [filename]) := by
  simp [serve_file, h]

/-- C5 witness: serving `app.js` from the sample filesystem. -/
theorem spec_c5_witness :
    sampleFs "app.js" = .ok "console.log(1)" ∧
    serve_file sampleFs "app.js" "application/javascript" =
      (⟨200, "application/javascript; charset=utf-8", some "no-cache",
        "console.log(1)"⟩, ["app.js"]) :=
  ⟨rfl, spec_c5 sampleFs "app.js" "application/javascript" "console.log(1)" rfl⟩

/-- C8: the 404 and 500 responses of `serve_file` carry content type
`text/plain` with no charset parameter and send no `Cache-Control`
header; the `Cache-Control: no-cache` header is sent exactly when the
read succeeded. -/
theorem spec_c8 (fs : String → ReadResult) (filename contentType : String) :
    (fs filename = .notFound →
      serve_file fs filename contentType =
        (⟨404, "text/plain", none, "File not found"⟩, [filename])) ∧
    (∀ e, fs filename = .err e →
      serve_file fs filename contentType =
        (⟨500, "text/plain", none, "Server error: " ++ e⟩, [filename])) ∧
    (∀ r lg, serve_file fs filename contentType = (r, lg) →
      (r.cacheControl = some "no-cache" ↔ ∃ c, fs filename = .ok c)) := by
  refine ⟨fun h => by simp [serve_file, h], fun e h => by simp [serve_file, h], ?_⟩
  intro r lg hr
  cases h : fs filename <;> simp [serve_file, h] at hr <;>
    simp [← hr.1, h]

/-- C8 witness: a missing stylesheet gives the bare 404 and an
unreadable stylesheet gives the bare 500 on the sample filesystem. -/
theorem spec_c8_witness :
    sampleFs "missing.css" = .notFound ∧
    serve_file sampleFs "missing.css" "text/css" =
      (⟨404, "text/plain", none, "File not found"⟩, ["missing.css"]) ∧
    serve_file sampleFs "locked.css" "text/css" =
      (⟨500, "text/plain", none, "Server error: Permission denied"⟩, ["locked.css"]) :=
  ⟨rfl, (spec_c8 sampleFs "missing.css" "text/css").1 rfl,
    (spec_c8 sampleFs "locked.css" "text/css").2.1 "Permission denied" rfl⟩

/-- C3: for every filesystem state, a GET whose path component is
exactly `/health` answers 200, `text/plain`, body `healthy`, and opens
no file — the health rule fires before every file-serving rule, so this
holds even when a file named `health` exists. -/
theorem spec_c3 (fs : String → ReadResult) (url : String)
    (h : urlparse_path url = "/health") :
    do_GET fs url = (⟨200, "text/plain", none, "healthy"⟩, []) := by
  simp [do_GET, h, route_path]

/-- C3 witness: on the sample filesystem, where a file named `health`
exists with different contents, `GET /health` still answers the
synthetic response and reads nothing. -/
theorem spec_c3_witness :
    sampleFs "health" = .ok "not served" ∧
    do_GET sampleFs "/health" = (⟨200, "text/plain", none, "healthy"⟩, []) :=
  ⟨rfl, spec_c3 sampleFs "/health" rfl⟩

/-- C7: when the listener cannot bind the port, the uncaught `OSError`
terminates the process with a non-zero exit status carrying the
diagnostic; the failure is never converted into an HTTP response and
the server never starts serving. -/
theorem spec_c7 (e : String) :
    (∃ code diagnostic, run_main (.error e) = .fatalExit code diagnostic ∧
      code ≠ 0 ∧ diagnostic = e) ∧
    (∀ r, run_main (.error e) ≠ .httpResponse r) ∧
    (∀ port, run_main (.error e) ≠ .serving port) := by
  refine ⟨⟨1, e, rfl, Nat.one_ne_zero, rfl⟩, ?_, ?_⟩ <;>
    intro x hx <;> simp [run_main] at hx

/-- C1: a request path of the form `/` ++ `r` ending in `.css` (and not
one of the three special paths) is served from the file `r` — the path
with its single leading `/` stripped — as `text/css`, and the same path
ending in `.js` is served from `r` as `application/javascript`; on
success the response is 200 with body equal to the file's contents. -/
theorem spec_c1 (fs : String → ReadResult) (r c : String)
    (h1 : "/" ++ r ≠ "/health") (h2 : "/" ++ r ≠ "/")
    (h3 : "/" ++ r ≠ "/index.html") :
    (ends_with ("/" ++ r) ".css" = true → fs r = .ok c →
      route_path fs ("/" ++ r) =
        (⟨200, "text/css; charset=utf-8", some "no-cache", c⟩, [r])) ∧
    (ends_with ("/" ++ r) ".js" = true → fs r = .ok c →
      route_path fs ("/" ++ r) =
        (⟨200, "application/javascript; charset=utf-8", some "no-cache", c⟩, [r])) := by
  constructor
  · intro hcss hf
    simp [route_path, h1, h2, h3, hcss, drop1_slash_append, serve_file, hf]
  · intro hjs hf
    simp [route_path, h1, h2, h3, not_css_of_js _ hjs, hjs,
      drop1_slash_append, serve_file, hf]

/-- C1 witness: `/style.css` and `/app.js` on the sample filesystem. -/
theorem spec_c1_witness :
    route_path sampleFs "/style.css" =
      (⟨200, "text/css; charset=utf-8", some "no-cache", "css-content"⟩,
        ["style.css"]) ∧
    route_path sampleFs "/app.js" =
      (⟨200, "application/javascript; charset=utf-8", some "no-cache",
        "console.log(1)"⟩, ["app.js"]) :=
  ⟨(spec_c1 sampleFs "style.css" "css-content" (by decide) (by decide)
      (by decide)).1 (by decide) rfl,
   (spec_c1 sampleFs "app.js" "console.log(1)" (by decide) (by decide)
      (by decide)).2 (by decide) rfl⟩

/-- C9: for a path ending in `.css` or `.js` that does not begin with
`/`, the filename passed to `serve_file` is the path with its first
code point removed, whatever that code point is — stripping is by
position, not by matching a leading slash. -/
theorem spec_c9 (fs : String → ReadResult) (p : String)
    (h0 : starts_with p "/" = false) :
    (ends_with p ".css" = true →
      route_path fs p = serve_file fs (drop1 p) "text/css") ∧
    (ends_with p ".js" = true →
      route_path fs p = serve_file fs (drop1 p) "application/javascript") := by
  obtain ⟨h1, h2, h3⟩ := ne_specials_of_not_slash p h0
  constructor
  · intro hcss
    simp [route_path, h1, h2, h3, hcss]
  · intro hjs
    simp [route_path, h1, h2, h3, not_css_of_js _ hjs, hjs]

/-- C9 witness: the path `x.css` (no leading slash) is served from the
file named `.css`: the first code point `x` is removed by position. -/
theorem spec_c9_witness :
    starts_with "x.css" "/" = false ∧
    route_path sampleFs "x.css" = serve_file sampleFs ".css" "text/css" ∧
    (route_path sampleFs "x.css").2 = [".css"] :=
  ⟨by decide,
   (spec_c9 sampleFs "x.css" (by decide)).1 (by decide),
   by rw [(spec_c9 sampleFs "x.css" (by decide)).1 (by decide)]; rfl⟩

/-- C4: a request path matching none of the first four rules — not
`/health`, not `/`, not `/index.html`, ending in neither `.css` nor
`.js` — produces exactly the response of a GET to `/`, namely
`index.html` served as `text/html; charset=utf-8` when it exists. -/
theorem spec_c4 (fs : String → ReadResult) (p : String)
    (h1 : p ≠ "/health") (h2 : p ≠ "/") (h3 : p ≠ "/index.html")
    (h4 : ends_with p ".css" = false) (h5 : ends_with p ".js" = false) :
    route_path fs p = do_GET fs "/" ∧
    (∀ c, fs "index.html" = .ok c →
      route_path fs p =
        (⟨200, "text/html; charset=utf-8", some "no-cache", c⟩, ["index.html"])) := by
  have hroute : route_path fs p = serve_file fs "index.html" "text/html" := by
    simp [route_path, h1, h2, h3, h4, h5]
  have hslash : do_GET fs "/" = serve_file fs "index.html" "text/html" := by
    have hp : urlparse_path "/" = "/" := rfl
    simp [do_GET, hp, route_path]
  refine ⟨hroute.trans hslash.symm, fun c hc => ?_⟩
  rw [hroute]
  simp [serve_file, hc]

/-- C4 witness: `/logo.png` — an unrecognized extension — answers
exactly like `GET /` on the sample filesystem. -/
theorem spec_c4_witness :
    ends_with "/logo.png" ".css" = false ∧
    ends_with "/logo.png" ".js" = false ∧
    route_path sampleFs "/logo.png" = do_GET sampleFs "/" ∧
    route_path sampleFs "/logo.png" =
      (⟨200, "text/html; charset=utf-8", some "no-cache", "<html>hi</html>"⟩,
        ["index.html"]) :=
  ⟨by decide, by decide,
   (spec_c4 sampleFs "/logo.png" (by decide) (by decide) (by decide)
      (by decide) (by decide)).1,
   (spec_c4 sampleFs "/logo.png" (by decide) (by decide) (by decide)
      (by decide) (by decide)).2 "<html>hi</html>" rfl⟩

/-- `takeWhile` runs past a block whose elements all satisfy the
predicate. -/
theorem takeWhile_append_of_all (pr : Char → Bool) (l r : List Char)
    (h : ∀ a ∈ l, pr a = true) :
    (l ++ r).takeWhile pr = l ++ r.takeWhile pr := by
  induction l with
  | nil => simp
  | cons a t ih =>
    simp only [List.cons_append, List.takeWhile_cons,
      h a (List.mem_cons_self a t), if_true]
    rw [ih fun b hb => h b (List.mem_cons_of_mem a hb)]

/-- The path component of a target built from a path free of `?` and
`#` followed by a suffix that is empty or starts with `?` or `#` is
that path: the query string and fragment are parsed away. -/
theorem urlparse_path_append (p s : String)
    (hp : ∀ c ∈ p.data, c ≠ '?' ∧ c ≠ '#')
    (hs : s.data = [] ∨ s.data.head? = some '?' ∨ s.data.head? = some '#') :
    urlparse_path (p ++ s) = p := by
  have hd : (p ++ s).data = p.data ++ s.data := rfl
  have hall : ∀ a ∈ p.data, (!(a == '?' || a == '#')) = true := by
    intro a ha
    simp [(hp a ha).1, (hp a ha).2]
  have hnil : s.data.takeWhile (fun c => !(c == '?' || c == '#')) = [] := by
    rcases hs with h0 | h0 | h0
    · rw [h0]
      rfl
    · cases hsd : s.data with
      | nil => rfl
      | cons c t =>
        rw [hsd] at h0
        simp at h0
        rw [h0]
        rfl
    · cases hsd : s.data with
      | nil => rfl
      | cons c t =>
        rw [hsd] at h0
        simp at h0
        rw [h0]
        rfl
  show String.mk (((p ++ s).data).takeWhile (fun c => !(c == '?' || c == '#'))) = p
  rw [hd, takeWhile_append_of_all _ _ _ hall, hnil, List.append_nil]

/-- C6: the response depends only on the URL's path component — two GET
requests whose targets share a path (free of `?` and `#`) and differ
only in an appended query string or fragment produce identical
responses, for every filesystem state. -/
theorem spec_c6 (fs : String → ReadResult) (p s1 s2 : String)
    (hp : ∀ c ∈ p.data, c ≠ '?' ∧ c ≠ '#')
    (hs1 : s1.data = [] ∨ s1.data.head? = some '?' ∨ s1.data.head? = some '#')
    (hs2 : s2.data = [] ∨ s2.data.head? = some '?' ∨ s2.data.head? = some '#') :
    do_GET fs (p ++ s1) = do_GET fs (p ++ s2) := by
  unfold do_GET
  rw [urlparse_path_append p s1 hp hs1, urlparse_path_append p s2 hp hs2]

/-- C6 witness: `GET /index.html?x=1#y` behaves identically to
`GET /index.html`. -/
theorem spec_c6_witness :
    do_GET sampleFs "/index.html?x=1#y" = do_GET sampleFs "/index.html" :=
  spec_c6 sampleFs "/index.html" "?x=1#y" "" (by decide) (by decide) (by decide)

/-- C10: dispatch is total and deterministic — every path matches
exactly one of the five routing rules under the source's
first-match-wins order; the response is a function of the path
component alone, so two requests with the same path component get
identical responses; and routing a path produces exactly the matched
rule's action. -/
theorem spec_c10 :
    (∀ p : String, ∃! r : Rule, ruleMatches p r) ∧
    (∀ (fs : String → ReadResult) (u v : String),
      urlparse_path u = urlparse_path v → do_GET fs u = do_GET fs v) ∧
    (∀ (fs : String → ReadResult) (p : String) (r : Rule),
      ruleMatches p r → route_path fs p = ruleAction fs p r) := by
  refine ⟨?_, ?_, ?_⟩
  · intro p
    by_cases h1 : p = "/health"
    · refine ⟨.health, h1, fun y hy => ?_⟩
      cases y with
      | health => rfl
      | rootIndex => exact absurd h1 hy.1
      | css => exact absurd h1 hy.1
      | js => exact absurd h1 hy.1
      | fallback => exact absurd h1 hy.1
    · by_cases h2 : p = "/" ∨ p = "/index.html"
      · refine ⟨.rootIndex, ⟨h1, h2⟩, fun y hy => ?_⟩
        cases y with
        | health => exact absurd hy h1
        | rootIndex => rfl
        | css => exact absurd h2 hy.2.1
        | js => exact absurd h2 hy.2.1
        | fallback => exact absurd h2 hy.2.1
      · by_cases h3 : ends_with p ".css" = true
        · refine ⟨.css, ⟨h1, h2, h3⟩, fun y hy => ?_⟩
          cases y with
          | health => exact absurd hy h1
          | rootIndex => exact absurd hy.2 h2
          | css => rfl
          | js => rw [hy.2.2.1] at h3; exact absurd h3 (by simp)
          | fallback => rw [hy.2.2.1] at h3; exact absurd h3 (by simp)
        · have h3f : ends_with p ".css" = false := by
            simpa using h3
          by_cases h4 : ends_with p ".js" = true
          · refine ⟨.js, ⟨h1, h2, h3f, h4⟩, fun y hy => ?_⟩
            cases y with
            | health => exact absurd hy h1
            | rootIndex => exact absurd hy.2 h2
            | css => rw [hy.2.2] at h3f; exact absurd h3f (by simp)
            | js => rfl
            | fallback => rw [hy.2.2.2] at h4; exact absurd h4 (by simp)
          · have h4f : ends_with p ".js" = false := by
              simpa using h4
            refine ⟨.fallback, ⟨h1, h2, h3f, h4f⟩, fun y hy => ?_⟩
            cases y with
            | health => exact absurd hy h1
            | rootIndex => exact absurd hy.2 h2
            | css => rw [hy.2.2] at h3f; exact absurd h3f (by simp)
            | js => rw [hy.2.2.2] at h4f; exact absurd h4f (by simp)
            | fallback => rfl
  · intro fs u v huv
    unfold do_GET
    rw [huv]
  · intro fs p r hr
    cases r with
    | health => rw [hr]; rfl
    | rootIndex =>
      unfold route_path ruleAction
      rw [if_neg hr.1, if_pos hr.2]
    | css =>
      unfold route_path ruleAction
      rw [if_neg hr.1, if_neg hr.2.1, if_pos hr.2.2]
    | js =>
      unfold route_path ruleAction
      rw [if_neg hr.1, if_neg hr.2.1, if_neg (by simp [hr.2.2.1]),
        if_pos hr.2.2.2]
    | fallback =>
      unfold route_path ruleAction
      rw [if_neg hr.1, if_neg hr.2.1, if_neg (by simp [hr.2.2.1]),
        if_neg (by simp [hr.2.2.2])]

/-- C10 witness: two targets with the same path component answer
identically, and `/style.css` is routed by the css rule's action. -/
theorem spec_c10_witness :
    do_GET sampleFs "/about?x=1" = do_GET sampleFs "/about#y" ∧
    route_path sampleFs "/style.css" = ruleAction sampleFs "/style.css" .css :=
  ⟨spec_c10.2.1 sampleFs "/about?x=1" "/about#y" (by decide),
   spec_c10.2.2 sampleFs "/style.css" .css (by decide)⟩

end TweetStream
